import Mathlib

/-!
Shallow embedding of the multi-agent analysis and orchestration subsystem of
the zenlabs spa/salon backend: the base-agent reasoning contract
(src/backend/agents/base_agent.py), the two concrete agents
(src/backend/agents/scheduler_agent.py,
src/backend/agents/client_intelligence_agent.py) and the workflow coordinator
(src/backend/orchestration/coordinator.py).

Modelling conventions:
- Money amounts and other numeric DB columns are ℚ; day counts and integer
  columns are ℤ or ℕ.
- Side effects (data-store reads, reasoning-provider calls, audit-log writes)
  are made explicit as a trace of Effect values returned next to each result.
- A Python exception is an Except.error value; a function that cannot raise
  returns Except.ok.
- The reasoning provider (Anthropic client call inside BaseAgent.think) is an
  environment parameter of type Except String String: .ok text is a successful
  completion, .error e is a raised provider exception.
- SQL result sets are list parameters; the WHERE/ORDER BY/LIMIT clauses of the
  queries the agents issue are embedded as filter / insertionSort / take over
  those lists.
-/

/-- One observable side effect of an agent or coordinator operation:
a data-store read (db.fetch), a reasoning-provider call
(client.messages.create), or a log_action call (INSERT INTO agent_actions). -/
inductive Effect
  | dbFetch
  | providerCall
  | logAction (action_type : String) (reasoning : String) (confidence : Option ℚ)
deriving DecidableEq

/-- The dict built by BaseAgent.think on success:
{"reasoning": ..., "agent": ...} (timestamp and execution_time_ms elided,
they carry no logic). -/
structure ThinkResult where
  reasoning : String
  agent : String
deriving DecidableEq

/-- BaseAgent.think (base_agent.py lines 29-69): calls the reasoning provider,
then on success calls log_action("thinking", "Task: " ++ task[:100], result,
confidence=0.9) and returns the result.  There is no try/except around the
provider call: a provider exception propagates and no log_action call is made
on that path. -/
def think (agentId : String) (task : String) (provider : Except String String) :
    Except String ThinkResult × List Effect :=
  match provider with
  | .error e => (.error e, [.providerCall])
  | .ok text =>
      (.ok ⟨text, agentId⟩,
       [.providerCall, .logAction "thinking" ("Task: " ++ task.take 100) (some (9/10))])

/-- Count of log_action calls in an effect trace. -/
def countLogActions (effs : List Effect) : ℕ :=
  (effs.filter (fun e => match e with | .logAction _ _ _ => true | _ => false)).length

/-- Python str() of the value task.get("type"): a missing key renders as
"None". -/
def pyOptStr : Option String → String
  | none => "None"
  | some s => s

/-- Round-half-to-even of a rational to an integer, the idealization of
Python's round() on the numeric values flowing through the agents. -/
def roundHalfEven (q : ℚ) : ℤ :=
  if q - ⌊q⌋ < 1/2 then ⌊q⌋
  else if 1/2 < q - ⌊q⌋ then ⌊q⌋ + 1
  else if 2 ∣ ⌊q⌋ then ⌊q⌋ else ⌊q⌋ + 1

/-- Python round(q, ndigits). -/
def pyRound (ndigits : ℕ) (q : ℚ) : ℚ :=
  (roundHalfEven (q * 10 ^ ndigits) : ℚ) / 10 ^ ndigits

/- ===== Client Intelligence Agent (client_intelligence_agent.py) ===== -/

/-- The three churn risk labels. -/
inductive RiskLevel
  | HIGH
  | MEDIUM
  | LOW
deriving DecidableEq

/-- The risk-level assignment of detect_churn_risk
(client_intelligence_agent.py lines 81-87): HIGH if total_spent > 1000 and
days_since_visit > 60; elif total_spent > 500 or days_since_visit > 75 then
MEDIUM; else LOW. -/
def riskLevel (total_spent : ℚ) (days_since_visit : ℤ) : RiskLevel :=
  if total_spent > 1000 ∧ days_since_visit > 60 then .HIGH
  else if total_spent > 500 ∨ days_since_visit > 75 then .MEDIUM
  else .LOW

/-- A row of the customers table, dates as integer day numbers. -/
structure CustomerRow where
  id : ℕ
  name : String
  email : String
  phone : String
  last_visit : ℤ
  total_visits : ℤ
  total_spent : ℚ
  preferred_services : String
deriving DecidableEq

/-- The WHERE clause of the detect_churn_risk query
(client_intelligence_agent.py lines 47-57):
last_visit < CURRENT_DATE - 45 days AND last_visit >= CURRENT_DATE - 120 days
AND total_visits >= 3. -/
def churnQueryFilter (today : ℤ) (c : CustomerRow) : Bool :=
  decide (c.last_visit < today - 45) && decide (today - 120 ≤ c.last_visit) &&
    decide (3 ≤ c.total_visits)

/-- ORDER BY total_spent DESC: b comes no earlier than a when
b.total_spent ≤ a.total_spent. -/
def spentDescOrder (a b : CustomerRow) : Prop := b.total_spent ≤ a.total_spent

instance : DecidableRel spentDescOrder :=
  fun a b => inferInstanceAs (Decidable (b.total_spent ≤ a.total_spent))

instance : IsTotal CustomerRow spentDescOrder :=
  ⟨fun a b => le_total b.total_spent a.total_spent⟩

instance : IsTrans CustomerRow spentDescOrder :=
  ⟨fun _ _ _ h1 h2 => le_trans h2 h1⟩

/-- The full detect_churn_risk candidate query: WHERE filter,
ORDER BY total_spent DESC, LIMIT 10. -/
def detectChurnCandidates (today : ℤ) (customers : List CustomerRow) :
    List CustomerRow :=
  ((customers.filter (churnQueryFilter today)).insertionSort spentDescOrder).take 10

/-- The customer dict built per candidate row (client_intelligence_agent.py
lines 69-87): days_since_visit = CURRENT_DATE - last_visit, and risk_level
assigned from (total_spent, days_since_visit). -/
structure ChurnCustomer where
  id : ℕ
  name : String
  email : String
  phone : String
  days_since_visit : ℤ
  total_visits : ℤ
  total_spent : ℚ
  preferred_services : String
  risk_level : RiskLevel
deriving DecidableEq

/-- Build the per-candidate customer dict from a row. -/
def toChurnCustomer (today : ℤ) (c : CustomerRow) : ChurnCustomer :=
  { id := c.id
    name := c.name
    email := c.email
    phone := c.phone
    days_since_visit := today - c.last_visit
    total_visits := c.total_visits
    total_spent := c.total_spent
    preferred_services := c.preferred_services
    risk_level := riskLevel c.total_spent (today - c.last_visit) }

/-- The summary dict of detect_churn_risk (lines 92-96). -/
structure ChurnSummary where
  total_at_risk : ℕ
  high_risk : ℕ
  value_at_risk : ℚ
deriving DecidableEq

/-- The per-segment output row of segment_customers (lines 142-149). -/
structure SegmentRow where
  segment : String
  count : ℕ
  avg_ltv : ℚ
  avg_visits : ℚ
deriving DecidableEq

/-- The CASE expression of the segment_customers query
(client_intelligence_agent.py lines 129-134): VIP when
total_spent > 1500 AND total_visits > 10, else Regular when
total_spent > 500 AND total_visits > 5, else New when total_visits <= 2,
else Occasional. -/
def segmentOf (total_spent : ℚ) (total_visits : ℤ) : String :=
  if total_spent > 1500 ∧ total_visits > 10 then "VIP"
  else if total_spent > 500 ∧ total_visits > 5 then "Regular"
  else if total_visits ≤ 2 then "New"
  else "Occasional"

/-- The GROUP BY segment aggregation: for each segment value present, its
customer count, AVG(total_spent) and AVG(total_visits), with the rounding
applied by the agent when building segment_data. -/
def segmentRows (customers : List CustomerRow) : List SegmentRow :=
  (["VIP", "Regular", "New", "Occasional"]).filterMap (fun s =>
    let group := customers.filter (fun c => segmentOf c.total_spent c.total_visits == s)
    if group.isEmpty then none
    else some
      { segment := s
        count := group.length
        avg_ltv := pyRound 2 ((group.map (fun c => c.total_spent)).sum / group.length)
        avg_visits := pyRound 1 (((group.map (fun c => c.total_visits)).sum : ℚ) / group.length) })

/-- The value returned by ClientIntelligenceAgent.execute_task, one
constructor per distinct dict shape the method can return. -/
inductive ClientTaskValue
  | churnNone (analysis : String) (total_at_risk : ℕ) (value_at_risk : ℚ)
  | churnDetected (at_risk_customers : List ChurnCustomer) (summary : ChurnSummary)
      (analysis : String) (agent : String)
  | segments (segs : List SegmentRow) (analysis : String) (agent : String)
  | err (msg : String)
deriving DecidableEq

/-- Environment of one ClientIntelligenceAgent call: the current date, the
customers table, and the reasoning-provider outcome. -/
structure ClientEnv where
  today : ℤ
  customers : List CustomerRow
  provider : Except String String

/-- ClientIntelligenceAgent.detect_churn_risk (lines 42-121): query, early
return when no rows, per-candidate risk assignment, summary, think, and the
churn_detection log_action with confidence 0.88. -/
def detectChurnRisk (env : ClientEnv) : Except String ClientTaskValue × List Effect :=
  let at_risk := detectChurnCandidates env.today env.customers
  if at_risk.isEmpty then
    (.ok (.churnNone "No at-risk customers detected" 0 0), [.dbFetch])
  else
    let at_risk_data := at_risk.map (toChurnCustomer env.today)
    let total_value := (at_risk_data.map (fun c => c.total_spent)).sum
    let summary : ChurnSummary :=
      { total_at_risk := at_risk_data.length
        high_risk := (at_risk_data.filter (fun c => c.risk_level = .HIGH)).length
        value_at_risk := pyRound 2 total_value }
    match think "client-intel-001"
        "Analyze these at-risk customers. For each HIGH risk customer, create a retention strategy with specific offers and messaging."
        env.provider with
    | (.error e, effs) => (.error e, .dbFetch :: effs)
    | (.ok tr, effs) =>
        (.ok (.churnDetected (at_risk_data.take 5) summary tr.reasoning "client-intel-001"),
         (.dbFetch :: effs) ++ [.logAction "churn_detection" (tr.reasoning.take 200) (some (88/100))])

/-- ClientIntelligenceAgent.segment_customers (lines 123-162): query the
grouped segments, narrate via think, return segments + analysis.  No extra
log_action beyond the one inside think. -/
def segmentCustomers (env : ClientEnv) : Except String ClientTaskValue × List Effect :=
  let segment_data := segmentRows env.customers
  match think "client-intel-001"
      "Analyze these customer segments. Recommend specific strategies for each segment to maximize value."
      env.provider with
  | (.error e, effs) => (.error e, .dbFetch :: effs)
  | (.ok tr, effs) =>
      (.ok (.segments segment_data tr.reasoning "client-intel-001"), .dbFetch :: effs)

/-- ClientIntelligenceAgent.execute_task (lines 32-40): dispatch on
task.get("type"); unknown types return the error dict with no effects. -/
def clientExecuteTask (task_type : Option String) (env : ClientEnv) :
    Except String ClientTaskValue × List Effect :=
  if task_type = some "detect_churn_risk" then detectChurnRisk env
  else if task_type = some "segment_customers" then segmentCustomers env
  else (.ok (.err ("Unknown task: " ++ pyOptStr task_type)), [])

/- ===== Smart Scheduler Agent (scheduler_agent.py) ===== -/

/-- One row of the grouped 30-day appointment query of analyze_utilization
(scheduler_agent.py lines 47-58): per-day COUNT(*) and SUM(total_amount);
the SUM is NULL (none) when every total_amount in the group is NULL. -/
structure DayRow where
  count : ℕ
  revenue : Option ℚ
deriving DecidableEq

/-- Python row["revenue"] or 0 (line 67): a null revenue contributes 0. -/
def rowRevenue (r : DayRow) : ℚ := r.revenue.getD 0

/-- total_revenue = sum(row["revenue"] or 0 for row in data). -/
def totalRevenue (rows : List DayRow) : ℚ := (rows.map rowRevenue).sum

/-- sum(row["count"] for row in data), the denominator of
avg_revenue_per_booking. -/
def totalBookings (rows : List DayRow) : ℕ := (rows.map (fun r => r.count)).sum

/-- avg_daily_bookings = sum(row["count"] for row in data) / len(data). -/
def avgDailyBookings (rows : List DayRow) : ℚ :=
  (totalBookings rows : ℚ) / rows.length

/-- capacity_per_day = 50 (line 71). -/
def capacityPerDay : ℚ := 50

/-- avg_utilization = (avg_daily_bookings / capacity_per_day) * 100. -/
def avgUtilization (rows : List DayRow) : ℚ :=
  avgDailyBookings rows / capacityPerDay * 100

/-- The opportunity computation (lines 75-81): when avg_utilization < 85,
gap = (85 - avg_utilization) / 100,
avg_revenue_per_booking = total_revenue / total bookings,
daily_opportunity = gap * capacity_per_day * avg_revenue_per_booking,
monthly_opportunity = daily_opportunity * 20; else monthly_opportunity = 0. -/
def monthlyOpportunity (rows : List DayRow) : ℚ :=
  if avgUtilization rows < 85 then
    (85 - avgUtilization rows) / 100 * capacityPerDay *
      (totalRevenue rows / (totalBookings rows : ℚ)) * 20
  else 0

/-- The context dict of analyze_utilization (lines 83-89), with the rounding
the code applies. -/
structure UtilMetrics where
  appointments_30d : ℕ
  total_revenue : ℚ
  avg_daily_bookings : ℚ
  utilization_pct : ℚ
  monthly_opportunity : ℚ
deriving DecidableEq

/-- One row of the grouped 60-day gap query of find_scheduling_gaps
(lines 114-124) before the HAVING/ORDER BY/LIMIT clauses: EXTRACT(DOW) is in
0..6, so the day index is a Fin 7. -/
structure GapBucket where
  day_of_week : Fin 7
  hour : ℕ
  bookings : ℕ
deriving DecidableEq

/-- The per-gap dict built by find_scheduling_gaps (lines 133-138). -/
structure GapOut where
  day : String
  hour : ℕ
  bookings : ℕ
deriving DecidableEq

/-- days = ["Sun", "Mon", "Tue", "Wed", "Thu", "Fri", "Sat"] (line 130). -/
def dayNames : List String := ["Sun", "Mon", "Tue", "Wed", "Thu", "Fri", "Sat"]

/-- ORDER BY bookings ASC over gap buckets. -/
def bookingsAscOrder (a b : GapBucket) : Prop := a.bookings ≤ b.bookings

instance : DecidableRel bookingsAscOrder :=
  fun a b => inferInstanceAs (Decidable (a.bookings ≤ b.bookings))

/-- The value returned by SmartSchedulerAgent.execute_task, one constructor
per distinct dict shape the method can return. -/
inductive SchedTaskValue
  | insufficient (analysis : String) (utilization : ℚ) (revenue : ℚ)
  | analyzed (analysis : String) (metrics : UtilMetrics) (agent : String)
  | noGaps (analysis : String)
  | gapsFound (analysis : String) (gaps : List GapOut) (agent : String)
  | err (msg : String)
deriving DecidableEq

/-- Environment of one SmartSchedulerAgent call: the two query result sets and
the reasoning-provider outcome. -/
structure SchedEnv where
  dayRows : List DayRow
  gapBuckets : List GapBucket
  provider : Except String String

/-- SmartSchedulerAgent.analyze_utilization (scheduler_agent.py lines 42-108).
If the query returns no rows, the fixed insufficient-data dict
{"analysis": "Insufficient data", "metrics": {"utilization": 0, "revenue": 0}}
is returned before any reasoning call.  Otherwise the metrics are computed;
the division total_revenue / total_bookings in the utilization < 85 branch
raises ZeroDivisionError when the bookings sum is 0 (impossible for rows
produced by the GROUP BY query, whose COUNT(*) is at least 1).  Then think is
called, and on its success the utilization_analysis action is logged with
confidence 0.9. -/
def analyzeUtilization (rows : List DayRow) (provider : Except String String) :
    Except String SchedTaskValue × List Effect :=
  if rows.isEmpty then
    (.ok (.insufficient "Insufficient data" 0 0), [.dbFetch])
  else if avgUtilization rows < 85 ∧ totalBookings rows = 0 then
    (.error "ZeroDivisionError", [.dbFetch])
  else
    let context : UtilMetrics :=
      { appointments_30d := rows.length
        total_revenue := pyRound 2 (totalRevenue rows)
        avg_daily_bookings := pyRound 1 (avgDailyBookings rows)
        utilization_pct := pyRound 1 (avgUtilization rows)
        monthly_opportunity := pyRound 2 (monthlyOpportunity rows) }
    match think "scheduler-001"
        "Analyze this 30-day utilization data. Identify patterns and provide specific recommendations to improve utilization and revenue."
        provider with
    | (.error e, effs) => (.error e, .dbFetch :: effs)
    | (.ok tr, effs) =>
        (.ok (.analyzed tr.reasoning context "scheduler-001"),
         (.dbFetch :: effs) ++
           [.logAction "utilization_analysis" (tr.reasoning.take 200) (some (9/10))])

/-- SmartSchedulerAgent.find_scheduling_gaps (lines 110-154): HAVING
COUNT(*) < 3, ORDER BY bookings ASC, LIMIT 10; early return when no buckets
qualify; otherwise think and return the top 5 gaps. -/
def findSchedulingGaps (buckets : List GapBucket) (provider : Except String String) :
    Except String SchedTaskValue × List Effect :=
  let gaps := ((buckets.filter (fun b => b.bookings < 3)).insertionSort bookingsAscOrder).take 10
  if gaps.isEmpty then
    (.ok (.noGaps "No significant gaps found"), [.dbFetch])
  else
    let gap_data := gaps.map (fun b =>
      GapOut.mk (dayNames.getD b.day_of_week.val "") b.hour b.bookings)
    match think "scheduler-001"
        "These time slots have low booking rates. Recommend specific strategies to fill these gaps."
        provider with
    | (.error e, effs) => (.error e, .dbFetch :: effs)
    | (.ok tr, effs) =>
        (.ok (.gapsFound tr.reasoning (gap_data.take 5) "scheduler-001"), .dbFetch :: effs)

/-- SmartSchedulerAgent.execute_task (lines 32-40): dispatch on
task.get("type"); unknown types return the error dict with no effects. -/
def schedulerExecuteTask (task_type : Option String) (env : SchedEnv) :
    Except String SchedTaskValue × List Effect :=
  if task_type = some "analyze_utilization" then analyzeUtilization env.dayRows env.provider
  else if task_type = some "find_gaps" then findSchedulingGaps env.gapBuckets env.provider
  else (.ok (.err ("Unknown task: " ++ pyOptStr task_type)), [])

/- ===== Agent Coordinator (coordinator.py) ===== -/

/-- The dict returned by daily_analysis_workflow on success
(coordinator.py lines 37-61). -/
structure DailyAnalysisResult where
  workflow : String
  timestamp : String
  utilization : SchedTaskValue
  churn_risk : ClientTaskValue
deriving DecidableEq

/-- The dict returned by churn_prevention_workflow on success
(coordinator.py lines 67-87); at_risk_summary is a JSON object modelled as
key/value entries. -/
structure ChurnPreventionResult where
  workflow : String
  timestamp : String
  at_risk_summary : List (String × ℚ)
  recommendations : List ChurnCustomer
deriving DecidableEq

/-- churn_data.get("summary", {}): the entries of the "summary" key of a
client execute_task result dict, or none when the key is absent (segments
results and error dicts have no such key). -/
def summaryEntries : ClientTaskValue → Option (List (String × ℚ))
  | .churnNone _ t v => some [("total_at_risk", (t : ℚ)), ("value_at_risk", v)]
  | .churnDetected _ s _ _ =>
      some [("total_at_risk", (s.total_at_risk : ℚ)), ("high_risk", (s.high_risk : ℚ)),
            ("value_at_risk", s.value_at_risk)]
  | .segments _ _ _ => none
  | .err _ => none

/-- churn_data.get("at_risk_customers", []): the "at_risk_customers" key of a
client execute_task result dict, or none when the key is absent. -/
def atRiskEntries : ClientTaskValue → Option (List ChurnCustomer)
  | .churnNone _ _ _ => some []
  | .churnDetected l _ _ _ => some l
  | .segments _ _ _ => none
  | .err _ => none

/-- The merge step of churn_prevention_workflow (coordinator.py lines 83-84):
results["at_risk_summary"] = churn_data.get("summary", {}) and
results["recommendations"] = churn_data.get("at_risk_customers", []). -/
def churnPreventionMerge (churn_data : ClientTaskValue) (ts : String) :
    ChurnPreventionResult :=
  { workflow := "churn_prevention"
    timestamp := ts
    at_risk_summary := (summaryEntries churn_data).getD []
    recommendations := (atRiskEntries churn_data).getD [] }

/-- AgentCoordinator.daily_analysis_workflow (coordinator.py lines 33-61): the
registry is the set of registered agent ids; when scheduler-001 or
client-intel-001 is missing the workflow returns the error dict before any
agent (and hence any data-store) access; otherwise it runs analyze_utilization
then detect_churn_risk in sequence, propagating any raised exception. -/
def dailyAnalysisWorkflow (registered : List String) (senv : SchedEnv)
    (cenv : ClientEnv) (ts : String) :
    Except String DailyAnalysisResult × List Effect :=
  if "scheduler-001" ∈ registered ∧ "client-intel-001" ∈ registered then
    match schedulerExecuteTask (some "analyze_utilization") senv with
    | (.error e, effs1) => (.error e, effs1)
    | (.ok u, effs1) =>
        match clientExecuteTask (some "detect_churn_risk") cenv with
        | (.error e, effs2) => (.error e, effs1 ++ effs2)
        | (.ok c, effs2) => (.ok ⟨"daily_analysis", ts, u, c⟩, effs1 ++ effs2)
  else (.error "Required agents not found", [])

/-- AgentCoordinator.churn_prevention_workflow (coordinator.py lines 63-87):
requires only client-intel-001; runs detect_churn_risk and republishes its
summary and customer list with defaults for absent keys. -/
def churnPreventionWorkflow (registered : List String) (cenv : ClientEnv)
    (ts : String) : Except String ChurnPreventionResult × List Effect :=
  if "client-intel-001" ∈ registered then
    match clientExecuteTask (some "detect_churn_risk") cenv with
    | (.error e, effs) => (.error e, effs)
    | (.ok churn_data, effs) => (.ok (churnPreventionMerge churn_data ts), effs)
  else (.error "Client Intelligence agent not found", [])

/-- AgentCoordinator.run_workflow (coordinator.py lines 20-31): dispatch on
the workflow name; unknown names return the error dict. -/
inductive WorkflowValue
  | daily (r : DailyAnalysisResult)
  | churnPrev (r : ChurnPreventionResult)
  | err (msg : String)
deriving DecidableEq

/-- run_workflow dispatch. -/
def runWorkflow (name : String) (registered : List String) (senv : SchedEnv)
    (cenv : ClientEnv) (ts : String) : Except String WorkflowValue × List Effect :=
  if name = "daily_analysis" then
    match dailyAnalysisWorkflow registered senv cenv ts with
    | (.error e, effs) => (.error e, effs)
    | (.ok r, effs) => (.ok (.daily r), effs)
  else if name = "churn_prevention" then
    match churnPreventionWorkflow registered cenv ts with
    | (.error e, effs) => (.error e, effs)
    | (.ok r, effs) => (.ok (.churnPrev r), effs)
  else (.ok (.err ("Unknown workflow: " ++ name)), [])

/- ===== Concrete sample data used by the witnesses ===== -/

/-- A successful provider outcome. -/
def sampleProvider : Except String String := .ok "analysis text"

/-- A scheduler environment with empty query results. -/
def sampleSchedEnv : SchedEnv := ⟨[], [], sampleProvider⟩

/-- A client environment with an empty customers table. -/
def sampleClientEnv : ClientEnv := ⟨0, [], sampleProvider⟩

/-- The three-day rows of the worked example in the spec: daily bookings
[20, 25, 30] with revenues [1000, 1200, 1500]. -/
def exampleRows : List DayRow := [⟨20, some 1000⟩, ⟨25, some 1200⟩, ⟨30, some 1500⟩]

/-- Two all-null-revenue day rows. -/
def nullRevenueRows : List DayRow := [⟨3, none⟩, ⟨4, none⟩]

/-- A customer whose last visit was exactly 120 days before day 0 and who has
3 historical visits. -/
def cust120 : CustomerRow :=
  { id := 1
    name := "Ana"
    email := "ana@example.com"
    phone := "555"
    last_visit := -120
    total_visits := 3
    total_spent := 100
    preferred_services := "massage" }

/- ===== Theorems ===== -/

/-- C1 counterexample: the claim states that even when the reasoning-provider
call fails, BaseAgent.think still logs exactly one audit action.  On the code,
a provider failure propagates out of think before log_action is reached: at
this concrete failing provider the call produces zero log_action calls and
re-raises the provider error. -/
theorem think_failure_logs_no_action :
    countLogActions (think "scheduler-001" "analyze" (.error "APIConnectionError")).2 = 0 ∧
    (think "scheduler-001" "analyze" (.error "APIConnectionError")).1 =
      .error "APIConnectionError" :=
  ⟨rfl, rfl⟩

/-- C1 (amended): every call to BaseAgent.think whose reasoning-provider call
succeeds produces exactly one log_action call (the "thinking" action with the
task prefix truncated to 100 characters and confidence 0.9); when the
reasoning-provider call fails, the exception propagates and no action is
logged. -/
theorem think_log_action_accounting (agentId task : String) :
    (∀ text,
      (think agentId task (.ok text)).1 = .ok ⟨text, agentId⟩ ∧
      (think agentId task (.ok text)).2 =
        [.providerCall,
         .logAction "thinking" ("Task: " ++ task.take 100) (some (9/10))] ∧
      countLogActions (think agentId task (.ok text)).2 = 1) ∧
    (∀ e,
      (think agentId task (.error e)).1 = .error e ∧
      countLogActions (think agentId task (.error e)).2 = 0) :=
  ⟨fun _ => ⟨rfl, rfl, rfl⟩, fun _ => ⟨rfl, rfl⟩⟩

/-- C2: for every customer row processed by detect_churn_risk, risk_level is
the pure function riskLevel of (total_spent, days_since_visit); it is HIGH iff
total_spent > 1000 and days_since_visit > 60, otherwise MEDIUM iff
total_spent > 500 or days_since_visit > 75, otherwise LOW, so LOW implies
neither the HIGH nor the MEDIUM predicate holds. -/
theorem risk_level_characterization (s : ℚ) (d : ℤ) :
    (riskLevel s d = .HIGH ↔ (s > 1000 ∧ d > 60)) ∧
    (riskLevel s d = .MEDIUM ↔ (¬(s > 1000 ∧ d > 60) ∧ (s > 500 ∨ d > 75))) ∧
    (riskLevel s d = .LOW ↔ (¬(s > 1000 ∧ d > 60) ∧ ¬(s > 500 ∨ d > 75))) ∧
    (∀ (today : ℤ) (c : CustomerRow),
      (toChurnCustomer today c).risk_level =
        riskLevel (toChurnCustomer today c).total_spent
          (toChurnCustomer today c).days_since_visit) := by
  refine ⟨?_, ?_, ?_, fun _ _ => rfl⟩ <;>
    · unfold riskLevel
      split_ifs with h1 h2 <;> simp_all

/-- C2 witness: a concrete customer with total_spent 1200 and 70 days since
the last visit is classified HIGH. -/
theorem risk_level_characterization_witness : riskLevel 1200 70 = .HIGH :=
  (risk_level_characterization 1200 70).1.mpr (by decide)

/-- C3: for every non-empty set of daily appointment rows, when the average
utilization (avg_daily_bookings / 50 * 100) is below 85 the monthly
opportunity equals ((85 - utilization)/100) * 50 * (total_revenue /
total_bookings) * 20, and when it is at least 85 the monthly opportunity is 0;
on the worked example (daily bookings [20, 25, 30], revenues
[1000, 1200, 1500]) the average daily bookings are 25, utilization is 50%,
the gap is 0.35, revenue per booking is 3700/75, and the monthly opportunity
is 51800/3, which is approximately 17266. -/
theorem utilization_opportunity_formula :
    (∀ rows : List DayRow, rows ≠ [] → avgUtilization rows < 85 →
      monthlyOpportunity rows =
        (85 - avgUtilization rows) / 100 * 50 *
          (totalRevenue rows / (totalBookings rows : ℚ)) * 20) ∧
    (∀ rows : List DayRow, rows ≠ [] → 85 ≤ avgUtilization rows →
      monthlyOpportunity rows = 0) ∧
    avgDailyBookings exampleRows = 25 ∧
    avgUtilization exampleRows = 50 ∧
    (85 - avgUtilization exampleRows) / 100 = 35 / 100 ∧
    totalRevenue exampleRows / (totalBookings exampleRows : ℚ) = 3700 / 75 ∧
    monthlyOpportunity exampleRows = 51800 / 3 ∧
    17266 ≤ monthlyOpportunity exampleRows ∧
    monthlyOpportunity exampleRows < 17267 := by
  have hbook : totalBookings exampleRows = 75 := by decide
  have hrev : totalRevenue exampleRows = 3700 := by
    norm_num [totalRevenue, rowRevenue, exampleRows]
  have hlen : exampleRows.length = 3 := by decide
  have havg : avgDailyBookings exampleRows = 25 := by
    rw [avgDailyBookings, hbook, hlen]; norm_num
  have hutil : avgUtilization exampleRows = 50 := by
    rw [avgUtilization, havg, capacityPerDay]; norm_num
  have hmo : monthlyOpportunity exampleRows = 51800 / 3 := by
    rw [monthlyOpportunity, if_pos (by rw [hutil]; norm_num), hutil, hrev, hbook,
      capacityPerDay]
    norm_num
  refine ⟨?_, ?_, havg, hutil, by rw [hutil]; norm_num,
    by rw [hrev, hbook]; norm_num, hmo,
    by rw [hmo]; norm_num, by rw [hmo]; norm_num⟩
  · intro rows _ h
    rw [monthlyOpportunity, if_pos h, capacityPerDay]
  · intro rows _ h
    rw [monthlyOpportunity, if_neg (not_lt.mpr h)]

/-- C3 witness: the formula branch of the theorem applied to the concrete
worked-example rows. -/
theorem utilization_opportunity_formula_witness :
    monthlyOpportunity exampleRows =
      (85 - avgUtilization exampleRows) / 100 * 50 *
        (totalRevenue exampleRows / (totalBookings exampleRows : ℚ)) * 20 :=
  utilization_opportunity_formula.1 exampleRows (by decide)
    (by rw [utilization_opportunity_formula.2.2.2.1]; norm_num)

/-- C4: when the 30-day appointment query returns zero rows,
analyze_utilization returns exactly the insufficient-data dict
{"analysis": "Insufficient data", "metrics": {"utilization": 0, "revenue": 0}}
and its effect trace contains no reasoning-provider call (think is not
invoked). -/
theorem analyze_utilization_empty_rows (provider : Except String String) :
    analyzeUtilization [] provider =
      (.ok (.insufficient "Insufficient data" 0 0), [.dbFetch]) ∧
    Effect.providerCall ∉ (analyzeUtilization [] provider).2 :=
  ⟨rfl, show Effect.providerCall ∉ [Effect.dbFetch] by decide⟩

/-- C5: for every registry missing scheduler-001 or client-intel-001,
daily_analysis_workflow returns the error dict
{"error": "Required agents not found"} with an empty effect trace: no
data-store access happens and no partial per-step result is produced. -/
theorem daily_analysis_missing_agent_aborts (registered : List String)
    (senv : SchedEnv) (cenv : ClientEnv) (ts : String)
    (h : "scheduler-001" ∉ registered ∨ "client-intel-001" ∉ registered) :
    dailyAnalysisWorkflow registered senv cenv ts =
      (.error "Required agents not found", []) := by
  unfold dailyAnalysisWorkflow
  rw [if_neg (by tauto)]

/-- C5 witness: with only the scheduling agent registered, the daily-analysis
workflow aborts with the error dict and no effects. -/
theorem daily_analysis_missing_agent_aborts_witness :
    dailyAnalysisWorkflow ["scheduler-001"] sampleSchedEnv sampleClientEnv "t" =
      (.error "Required agents not found", []) :=
  daily_analysis_missing_agent_aborts _ _ _ _ (Or.inr (by decide))

/-- C6: for every task whose type is not one of the agent's known task types,
execute_task on either concrete agent returns the structured error dict
{"error": "Unknown task: <type>"} without raising and with no effects, in
particular no audit-log write. -/
theorem unknown_task_returns_error (t : Option String) (senv : SchedEnv)
    (cenv : ClientEnv) :
    (t ≠ some "analyze_utilization" → t ≠ some "find_gaps" →
      schedulerExecuteTask t senv =
        (.ok (.err ("Unknown task: " ++ pyOptStr t)), [])) ∧
    (t ≠ some "detect_churn_risk" → t ≠ some "segment_customers" →
      clientExecuteTask t cenv =
        (.ok (.err ("Unknown task: " ++ pyOptStr t)), [])) := by
  constructor
  · intro h1 h2
    unfold schedulerExecuteTask
    rw [if_neg h1, if_neg h2]
  · intro h1 h2
    unfold clientExecuteTask
    rw [if_neg h1, if_neg h2]

/-- C6 witness: the task type "bogus" is unknown to both agents and yields the
error dict with an empty effect trace on each. -/
theorem unknown_task_returns_error_witness :
    schedulerExecuteTask (some "bogus") sampleSchedEnv =
      (.ok (.err ("Unknown task: " ++ pyOptStr (some "bogus"))), []) ∧
    clientExecuteTask (some "bogus") sampleClientEnv =
      (.ok (.err ("Unknown task: " ++ pyOptStr (some "bogus"))), []) :=
  ⟨(unknown_task_returns_error (some "bogus") sampleSchedEnv sampleClientEnv).1
      (by decide) (by decide),
   (unknown_task_returns_error (some "bogus") sampleSchedEnv sampleClientEnv).2
      (by decide) (by decide)⟩

/-- C7 counterexample: the claim states that detect_churn_risk selects only
customers whose last visit is strictly between 45 and 120 days before the
current date.  The query lower bound is inclusive
(last_visit >= CURRENT_DATE - INTERVAL 120 days): a customer whose last visit
was exactly 120 days ago, with 3 visits, is selected even though 120 days is
not strictly inside the 45..120 window. -/
theorem churn_window_includes_day_120 :
    cust120 ∈ detectChurnCandidates 0 [cust120] ∧
    ¬(0 - cust120.last_visit < 120) ∧ 45 < 0 - cust120.last_visit := by
  refine ⟨?_, by decide, by decide⟩
  simp [detectChurnCandidates, churnQueryFilter, cust120,
    List.insertionSort, List.orderedInsert]

/-- C7 (amended): detect_churn_risk selects exactly those customers whose
last visit is strictly more than 45 days and at most 120 days before the
current date (45 < days_since_visit ≤ 120, 120 inclusive) and who have at
least 3 total historical visits, ordered by total_spent descending and capped
at 10 candidates; a customer outside that window or with fewer than 3 visits
is never included, and every qualifying customer is included whenever at most
10 qualify. -/
theorem churn_candidate_selection (today : ℤ) (customers : List CustomerRow) :
    (∀ c ∈ detectChurnCandidates today customers,
      45 < today - c.last_visit ∧ today - c.last_visit ≤ 120 ∧
        3 ≤ c.total_visits) ∧
    (detectChurnCandidates today customers).length ≤ 10 ∧
    (detectChurnCandidates today customers).Sorted spentDescOrder ∧
    (∀ c ∈ customers, churnQueryFilter today c = true →
      (customers.filter (churnQueryFilter today)).length ≤ 10 →
      c ∈ detectChurnCandidates today customers) := by
  refine ⟨?_, ?_, ?_, ?_⟩
  · intro c hc
    have hmem : c ∈ (customers.filter (churnQueryFilter today)).insertionSort
        spentDescOrder :=
      List.take_subset _ _ hc
    have hfil : c ∈ customers.filter (churnQueryFilter today) :=
      (List.perm_insertionSort spentDescOrder _).mem_iff.mp hmem
    have hq : churnQueryFilter today c = true := (List.mem_filter.mp hfil).2
    simp only [churnQueryFilter, Bool.and_eq_true, decide_eq_true_eq] at hq
    omega
  · exact List.length_take_le 10
      ((customers.filter (churnQueryFilter today)).insertionSort spentDescOrder)
  · exact List.Pairwise.sublist (List.take_sublist _ _)
      (List.sorted_insertionSort spentDescOrder _)
  · intro c hc hq hlen
    have hfil : c ∈ customers.filter (churnQueryFilter today) :=
      List.mem_filter.mpr ⟨hc, hq⟩
    have hsort : c ∈ (customers.filter (churnQueryFilter today)).insertionSort
        spentDescOrder :=
      (List.perm_insertionSort spentDescOrder _).mem_iff.mpr hfil
    have heq : ((customers.filter (churnQueryFilter today)).insertionSort
        spentDescOrder).take 10 =
        (customers.filter (churnQueryFilter today)).insertionSort spentDescOrder :=
      List.take_of_length_le (by rw [List.length_insertionSort]; exact hlen)
    rw [detectChurnCandidates, heq]
    exact hsort

/-- C7 witness: the selection bounds of the amended theorem hold at the
concrete selected customer whose last visit was exactly 120 days ago. -/
theorem churn_candidate_selection_witness :
    45 < 0 - cust120.last_visit ∧ 0 - cust120.last_visit ≤ 120 ∧
      3 ≤ cust120.total_visits :=
  (churn_candidate_selection 0 [cust120]).1 cust120
    (by simp [detectChurnCandidates, churnQueryFilter, cust120,
      List.insertionSort, List.orderedInsert])

/-- C8: segment_customers assigns every customer exactly one segment among
VIP, Regular, New, Occasional, evaluated in that precedence order with
VIP = spent > 1500 and visits > 10, Regular = spent > 500 and visits > 5,
New = visits <= 2, Occasional = everything else; a customer satisfying both
the VIP and the New rule is classified VIP. -/
theorem segment_assignment_precedence (s : ℚ) (v : ℤ) :
    (∃! g : String, segmentOf s v = g ∧
      g ∈ (["VIP", "Regular", "New", "Occasional"] : List String)) ∧
    ((s > 1500 ∧ v > 10) → segmentOf s v = "VIP") ∧
    (¬(s > 1500 ∧ v > 10) → (s > 500 ∧ v > 5) → segmentOf s v = "Regular") ∧
    (¬(s > 1500 ∧ v > 10) → ¬(s > 500 ∧ v > 5) → v ≤ 2 →
      segmentOf s v = "New") ∧
    (¬(s > 1500 ∧ v > 10) → ¬(s > 500 ∧ v > 5) → ¬(v ≤ 2) →
      segmentOf s v = "Occasional") ∧
    ((s > 1500 ∧ v > 10) ∧ v ≤ 2 → segmentOf s v = "VIP") := by
  refine ⟨⟨segmentOf s v, ⟨rfl, ?_⟩, fun g hg => hg.1.symm⟩, ?_, ?_, ?_, ?_, ?_⟩ <;>
    · unfold segmentOf
      split_ifs <;> simp_all

/-- C8 witness: a concrete customer with spend 2000 and 11 visits is VIP. -/
theorem segment_assignment_precedence_witness : segmentOf 2000 11 = "VIP" :=
  (segment_assignment_precedence 2000 11).2.1 (by decide)

/-- C9: a daily row whose revenue is null contributes 0 to total_revenue
while its booking count contributes fully to the bookings total and to
avg_daily_bookings; consequently, for every non-empty row set whose per-day
counts are at least 1 (as COUNT(*) of a GROUP BY row always is), the bookings
total is positive and analyze_utilization computes its metrics without a
division error, returning the analyzed dict for any successful provider —
even when every row's revenue is null. -/
theorem null_revenue_and_metric_definedness (rows : List DayRow) (n : ℕ)
    (hne : rows ≠ []) (hcnt : ∀ r ∈ rows, 1 ≤ r.count) :
    rowRevenue ⟨n, none⟩ = 0 ∧
    totalRevenue (⟨n, none⟩ :: rows) = totalRevenue rows ∧
    totalBookings (⟨n, none⟩ :: rows) = n + totalBookings rows ∧
    avgDailyBookings (⟨n, none⟩ :: rows) =
      ((n + totalBookings rows : ℕ) : ℚ) / (rows.length + 1) ∧
    0 < totalBookings rows ∧
    (∀ text, ∃ m effs,
      analyzeUtilization rows (.ok text) =
        (.ok (.analyzed text m "scheduler-001"), effs)) := by
  have hbook : 0 < totalBookings rows := by
    obtain ⟨r, rs, rfl⟩ := List.exists_cons_of_ne_nil hne
    have h1 := hcnt r (by simp)
    simp only [totalBookings, List.map_cons, List.sum_cons]
    omega
  refine ⟨rfl, ?_, rfl, ?_, hbook, ?_⟩
  · simp [totalRevenue, rowRevenue]
  · simp [avgDailyBookings, totalBookings]
  · intro text
    have hempty : rows.isEmpty = false := by
      simp [List.isEmpty_iff, hne]
    have hguard : ¬(avgUtilization rows < 85 ∧ totalBookings rows = 0) := by
      rintro ⟨-, h0⟩
      omega
    simp only [analyzeUtilization, hempty, Bool.false_eq_true, if_false,
      hguard, think]
    exact ⟨_, _, rfl⟩

/-- C9 witness: two rows with all-null revenues and counts 3 and 4 have a
positive bookings total and analyze_utilization succeeds on them. -/
theorem null_revenue_and_metric_definedness_witness :
    0 < totalBookings nullRevenueRows ∧
    (∃ m effs,
      analyzeUtilization nullRevenueRows (.ok "analysis text") =
        (.ok (.analyzed "analysis text" m "scheduler-001"), effs)) := by
  have h := null_revenue_and_metric_definedness nullRevenueRows 0
    (by decide) (by decide)
  exact ⟨h.2.2.2.2.1, h.2.2.2.2.2 "analysis text"⟩

/-- C10: for every dict value returned by the client-intelligence agent's
execute_task — including an error dict that lacks the summary and
at_risk_customers keys — the churn_prevention_workflow merge yields a result
with the keys workflow, timestamp, at_risk_summary and recommendations, where
at_risk_summary defaults to the empty mapping and recommendations to the
empty list when the corresponding keys are absent; with client-intel-001
registered the workflow returns that merged result without raising whenever
execute_task returned a value. -/
theorem churn_prevention_result_shape (v : ClientTaskValue) (ts : String)
    (registered : List String) (cenv : ClientEnv) :
    (churnPreventionMerge v ts).workflow = "churn_prevention" ∧
    (churnPreventionMerge v ts).timestamp = ts ∧
    (summaryEntries v = none → (churnPreventionMerge v ts).at_risk_summary = []) ∧
    (atRiskEntries v = none → (churnPreventionMerge v ts).recommendations = []) ∧
    ("client-intel-001" ∈ registered →
      ∀ v' effs, clientExecuteTask (some "detect_churn_risk") cenv = (.ok v', effs) →
        churnPreventionWorkflow registered cenv ts =
          (.ok (churnPreventionMerge v' ts), effs)) := by
  refine ⟨rfl, rfl, ?_, ?_, ?_⟩
  · intro h
    simp [churnPreventionMerge, h]
  · intro h
    simp [churnPreventionMerge, h]
  · intro hreg v' effs hexec
    unfold churnPreventionWorkflow
    rw [if_pos hreg, hexec]

/-- C10 witness: the merge of the error dict has empty at_risk_summary and
recommendations, and the workflow over an empty customers table returns the
merged no-risk result without raising. -/
theorem churn_prevention_result_shape_witness :
    (churnPreventionMerge (.err "boom") "t").at_risk_summary = [] ∧
    (churnPreventionMerge (.err "boom") "t").recommendations = [] ∧
    churnPreventionWorkflow ["client-intel-001"] sampleClientEnv "t" =
      (.ok (churnPreventionMerge (.churnNone "No at-risk customers detected" 0 0) "t"),
       [.dbFetch]) := by
  have h := churn_prevention_result_shape (.err "boom") "t"
    ["client-intel-001"] sampleClientEnv
  exact ⟨h.2.2.1 rfl, h.2.2.2.1 rfl, h.2.2.2.2 (by decide) _ _ rfl⟩
